import Mathlib

/-!
Verification of the document-to-Markdown conversion layer of the
file-converter-seo-app repository, against its natural-language specification.

The Python sources are shallowly embedded: pure functions become Lean
functions, the Image Store's mutable object state becomes explicit state
passing, machine integers are `Nat` with `% 2^32` where the MD5 arithmetic
wraps, and code that can raise returns `Option`.  External libraries
(PIL image decoding/encoding, the `xml.etree` XML parser, pandas' summary
statistics, BeautifulSoup's HTML walk) are passed in as function parameters
at the exact call boundary the source uses them, so every repository-owned
line of logic is embedded concretely and executable.
-/

namespace Pylib

/-- Python whitespace for `str.strip` / `\s`: space, tab, LF, CR, VT, FF. -/
def pyIsSpace (c : Char) : Bool :=
  c = ' ' || c = '\t' || c = '\n' || c = '\r' || c = '\x0b' || c = '\x0c'

/-- `str.strip()` on a character list. -/
def pyStripL (l : List Char) : List Char :=
  ((l.dropWhile pyIsSpace).reverse.dropWhile pyIsSpace).reverse

/-- `str.strip()`. -/
def pyStrip (s : String) : String :=
  String.mk (pyStripL s.data)

/-- Number of words of `str.split()` (maximal runs of non-whitespace),
as a scan carrying an inside-a-word flag. -/
def countWordsGo : Bool → List Char → Nat
  | _, [] => 0
  | inWord, c :: t =>
    if pyIsSpace c then countWordsGo false t
    else (if inWord then 0 else 1) + countWordsGo true t

def countWords (s : String) : Nat := countWordsGo false s.data

/-- `pat` occurs as a substring (Python's `in` on strings). -/
def containsSubL (pat : List Char) : List Char → Bool
  | [] => pat.isEmpty
  | c :: t => pat.isPrefixOf (c :: t) || containsSubL pat t

def containsSub (s pat : String) : Bool := containsSubL pat.data s.data

/-- Number of positions at which `pat` occurs in `l`. -/
def countSubL (pat : List Char) : List Char → Nat
  | [] => 0
  | c :: t => (if pat.isPrefixOf (c :: t) then 1 else 0) + countSubL pat t

def countSub (s pat : String) : Nat := countSubL pat.data s.data

/-- Smallest index at which `pat` starts in `s`, if any. -/
def findSub (pat : List Char) : List Char → Option Nat
  | [] => if pat.isEmpty then some 0 else none
  | c :: t =>
    if pat.isPrefixOf (c :: t) then some 0
    else (findSub pat t).map (· + 1)

/-- Python `str.isupper()`: at least one cased character and every cased
character uppercase (restricted to ASCII letters, the only cased
characters the converter's inputs use). -/
def pyIsUpper (s : String) : Bool :=
  s.data.any (fun c => c.isAlpha) && s.data.all (fun c => !c.isAlpha || c.isUpper)

/-- Python `str.title()`: a letter is uppercased after a non-letter and
lowercased after a letter. -/
def pyTitleGo : Bool → List Char → List Char
  | _, [] => []
  | prevAlpha, c :: t =>
    (if c.isAlpha then (if prevAlpha then c.toLower else c.toUpper) else c)
      :: pyTitleGo c.isAlpha t

def pyTitle (s : String) : String := String.mk (pyTitleGo false s.data)

/-- Python `str.lower()` (ASCII). -/
def pyToLower (s : String) : String := String.mk (s.data.map Char.toLower)

/-- `s.startswith(p)` / `re.match` of a literal at the line start. -/
def startsWithL (s p : String) : Bool := p.data.isPrefixOf s.data

/-- Python `str.replace(pat, rep)`: all non-overlapping occurrences,
scanning left to right (fuel is the list length, enough for the scan). -/
def replaceAllGo (pat rep : List Char) : Nat → List Char → List Char
  | 0, l => l
  | _, [] => []
  | fuel + 1, c :: t =>
    if !pat.isEmpty && pat.isPrefixOf (c :: t) then
      rep ++ replaceAllGo pat rep fuel ((c :: t).drop pat.length)
    else c :: replaceAllGo pat rep fuel t

def pyReplace (s pat rep : String) : String :=
  String.mk (replaceAllGo pat.data rep.data s.data.length s.data)

end Pylib

namespace Md5

/-! `hashlib.md5(data).hexdigest()` (RFC 1321), over byte lists.
32-bit machine arithmetic is `Nat` with explicit `% 4294967296`. -/

def mask32 : Nat := 4294967296

def rotl32 (x n : Nat) : Nat :=
  (((x <<< n) % mask32) ||| (x >>> (32 - n)))

def md5K : List Nat :=
  [0xd76aa478, 0xe8c7b756, 0x242070db, 0xc1bdceee,
   0xf57c0faf, 0x4787c62a, 0xa8304613, 0xfd469501,
   0x698098d8, 0x8b44f7af, 0xffff5bb1, 0x895cd7be,
   0x6b901122, 0xfd987193, 0xa679438e, 0x49b40821,
   0xf61e2562, 0xc040b340, 0x265e5a51, 0xe9b6c7aa,
   0xd62f105d, 0x02441453, 0xd8a1e681, 0xe7d3fbc8,
   0x21e1cde6, 0xc33707d6, 0xf4d50d87, 0x455a14ed,
   0xa9e3e905, 0xfcefa3f8, 0x676f02d9, 0x8d2a4c8a,
   0xfffa3942, 0x8771f681, 0x6d9d6122, 0xfde5380c,
   0xa4beea44, 0x4bdecfa9, 0xf6bb4b60, 0xbebfbc70,
   0x289b7ec6, 0xeaa127fa, 0xd4ef3085, 0x04881d05,
   0xd9d4d039, 0xe6db99e5, 0x1fa27cf8, 0xc4ac5665,
   0xf4292244, 0x432aff97, 0xab9423a7, 0xfc93a039,
   0x655b59c3, 0x8f0ccc92, 0xffeff47d, 0x85845dd1,
   0x6fa87e4f, 0xfe2ce6e0, 0xa3014314, 0x4e0811a1,
   0xf7537e82, 0xbd3af235, 0x2ad7d2bb, 0xeb86d391]

def md5S : List Nat :=
  [7, 12, 17, 22, 7, 12, 17, 22, 7, 12, 17, 22, 7, 12, 17, 22,
   5, 9, 14, 20, 5, 9, 14, 20, 5, 9, 14, 20, 5, 9, 14, 20,
   4, 11, 16, 23, 4, 11, 16, 23, 4, 11, 16, 23, 4, 11, 16, 23,
   6, 10, 15, 21, 6, 10, 15, 21, 6, 10, 15, 21, 6, 10, 15, 21]

def md5F (i b c d : Nat) : Nat × Nat :=
  if i < 16 then ((b &&& c) ||| ((b ^^^ 0xffffffff) &&& d), i)
  else if i < 32 then ((d &&& b) ||| ((d ^^^ 0xffffffff) &&& c), (5 * i + 1) % 16)
  else if i < 48 then (b ^^^ c ^^^ d, (3 * i + 5) % 16)
  else (c ^^^ (b ||| (d ^^^ 0xffffffff)), (7 * i) % 16)

def md5Step (m : List Nat) (st : Nat × Nat × Nat × Nat) (i : Nat) :
    Nat × Nat × Nat × Nat :=
  let (a, b, c, d) := st
  let (f, g) := md5F i b c d
  let f2 := (f + a + md5K.getD i 0 + m.getD g 0) % mask32
  (d, (b + rotl32 f2 (md5S.getD i 0)) % mask32, b, c)

def md5Block (chunk : List Nat) (st : Nat × Nat × Nat × Nat) :
    Nat × Nat × Nat × Nat :=
  let m := (List.range 16).map (fun j =>
    (chunk.getD (4 * j) 0 % 256) + (chunk.getD (4 * j + 1) 0 % 256) * 256 +
      (chunk.getD (4 * j + 2) 0 % 256) * 65536 +
      (chunk.getD (4 * j + 3) 0 % 256) * 16777216)
  let r := (List.range 64).foldl (md5Step m) st
  let (a0, b0, c0, d0) := st
  ((a0 + r.1) % mask32, (b0 + r.2.1) % mask32,
   (c0 + r.2.2.1) % mask32, (d0 + r.2.2.2) % mask32)

/-- Process `n` consecutive 64-byte blocks. -/
def md5Loop : Nat → List Nat → Nat × Nat × Nat × Nat → Nat × Nat × Nat × Nat
  | 0, _, st => st
  | n + 1, bs, st => md5Loop n (bs.drop 64) (md5Block (bs.take 64) st)

/-- Pad to a multiple of 64 bytes: 0x80, zeros, 8-byte LE bit length. -/
def md5Pad (msg : List Nat) : List Nat :=
  let n := msg.length
  msg ++ [128] ++ List.replicate ((119 - (n % 64)) % 64) 0 ++
    (List.range 8).map (fun i => ((8 * n) >>> (8 * i)) % 256)

def md5Init : Nat × Nat × Nat × Nat :=
  (0x67452301, 0xefcdab89, 0x98badcfe, 0x10325476)

def hexDigit (n : Nat) : Char :=
  if n < 10 then Char.ofNat (48 + n) else Char.ofNat (87 + n)

def byteHex (b : Nat) : List Char := [hexDigit (b / 16 % 16), hexDigit (b % 16)]

def wordBytesLE (w : Nat) : List Nat :=
  [w % 256, w / 256 % 256, w / 65536 % 256, w / 16777216 % 256]

/-- `hashlib.md5(msg).hexdigest()`. -/
def md5Hex (msg : List Nat) : String :=
  let padded := md5Pad msg
  let r := md5Loop (padded.length / 64) padded md5Init
  String.mk ((([r.1, r.2.1, r.2.2.1, r.2.2.2].map wordBytesLE).flatten.map byteHex).flatten)

/-- `hashlib.md5(msg).hexdigest()[:8]`, the Image Store's content hash. -/
def md5Hex8 (msg : List Nat) : String := String.mk ((md5Hex msg).data.take 8)

end Md5

namespace ImageHandler

/-! `src/utils/image_handler.py`, class `ImageHandler`.  The mutable object
state (`self.images`, `self.image_data`, `self.image_counter`) becomes an
explicit record threaded through the operations.  Python dicts are embedded
as insertion-ordered association lists; `save_image` only ever inserts fresh
keys, so assoc-list lookup coincides with dict lookup. -/

/-- Image binary data: a list of byte values. -/
abbrev Bytes := List Nat

structure State where
  images : List (String × String)
  image_data : List (String × Bytes)
  image_counter : Nat
deriving Repr, DecidableEq

/-- `ImageHandler.__init__`. -/
def init : State := ⟨[], [], 0⟩

/-- Python dict lookup `d[k]` / `k in d` on an assoc list. -/
def lookupKey (k : String) : List (String × String) → Option String
  | [] => none
  | kv :: t => if kv.1 = k then some kv.2 else lookupKey k t

/-- `ImageHandler.save_image(image_data, ext, prefix)`: hash the bytes with
`hashlib.md5(...).hexdigest()[:8]`; if the hash is already stored return the
existing filename, otherwise bump the counter, compose
`prefix_counter_hash.ext` and record the mapping. -/
def save_image (st : State) (image_data : Bytes) (ext : String) (pfx : String) :
    String × State :=
  let image_hash := Md5.md5Hex8 image_data
  match lookupKey image_hash st.images with
  | some filename => (filename, st)
  | none =>
    let counter := st.image_counter + 1
    let filename := pfx ++ "_" ++ toString counter ++ "_" ++ image_hash ++ "." ++ ext
    (filename,
     { images := st.images ++ [(image_hash, filename)],
       image_data := st.image_data ++ [(image_hash, image_data)],
       image_counter := counter })

/-- `ImageHandler.get_all_images()` (a copy of the dict). -/
def get_all_images (st : State) : List (String × String) := st.images

/-- A batch of further `save_image` calls (data, ext, prefix). -/
def saveMany (st : State) : List (Bytes × String × String) → State
  | [] => st
  | (d, e, p) :: t => saveMany (save_image st d e p).2 t

/-- Abstraction of PIL: decoded image dimensions and color mode. -/
structure PILImage where
  width : Nat
  height : Nat
  mode : String
deriving Repr, DecidableEq

/-- `ImageHandler.optimize_image(image_data, max_width, quality)`.
`decode` abstracts `PIL.Image.open` (`none` = any decode failure caught by
the `except` block) and `encode` abstracts `img.save(...)` re-encoding for a
format string.  The mode/resize logic between those two calls is embedded
from the source; the float expression `int(height * (max_width / width))`
is written with exact rational arithmetic. -/
def optimize_image (decode : Bytes → Option PILImage)
    (encode : PILImage → String → Bytes)
    (image_data : Bytes) (max_width : Nat) : Bytes × String :=
  match decode image_data with
  | none => (image_data, "png")
  | some img0 =>
    let img1 :=
      if img0.mode = "RGBA" then { img0 with mode := "RGB" }
      else if img0.mode ≠ "RGB" ∧ img0.mode ≠ "L" then { img0 with mode := "RGB" }
      else img0
    let img2 :=
      if max_width < img1.width then
        { img1 with width := max_width, height := img1.height * max_width / img1.width }
      else img1
    let img_format := if img2.mode = "RGB" then "JPEG" else "PNG"
    let ext := if img_format = "JPEG" then "jpg" else "png"
    (encode img2 img_format, ext)

/-- Number of entries of the images dict carrying a given hash key. -/
def countKey (k : String) : List (String × String) → Nat
  | [] => 0
  | kv :: t => (if kv.1 = k then 1 else 0) + countKey k t

end ImageHandler

namespace CsvConverter

/-! `src/converters/csv_converter.py`, class `CsvConverter`.  The pandas
DataFrame produced by `pd.read_csv` is embedded as a parsed table: named,
dtype-tagged columns and rows of cells, a cell being `none` for a
missing/NaN value and `some s` for a value whose `str(...)` is `s`.
`df.empty` is pandas semantics: true when ANY axis has length zero, i.e.
when there are no rows or no columns.  `df.describe()` (floating-point
summary statistics) is abstracted as a `summary` parameter at its exact
call site in `_create_summary_table`. -/

structure Column where
  name : String
  dtype : String
deriving Repr, DecidableEq

structure DataFrame where
  cols : List Column
  rows : List (List (Option String))
deriving Repr, DecidableEq

/-- pandas `df.empty`: any axis of length 0. -/
def DataFrame.empty (df : DataFrame) : Bool :=
  df.rows.isEmpty || df.cols.isEmpty

/-- dtype kinds selected by `df.select_dtypes(include=["number"])`. -/
def isNumericDtype (d : String) : Bool :=
  d ∈ ["int8", "int16", "int32", "int64", "uint8", "uint16", "uint32",
       "uint64", "float16", "float32", "float64"]

/-- `CsvConverter._has_numeric_data`: Python's
`any(df.select_dtypes(include=["number"]).columns)` — truthiness of the
column NAMES, so an empty-string name counts as falsy. -/
def has_numeric_data (df : DataFrame) : Bool :=
  (df.cols.filter (fun c => isNumericDtype c.dtype)).any (fun c => c.name ≠ "")

/-- Cell cleaning in `_dataframe_to_markdown`: stringify (`""` for NaN),
escape `|` as `\|`, truncate beyond 100 characters to 97 plus `...`. -/
def cleanCell (v : Option String) : String :=
  match v with
  | none => ""
  | some s =>
    let e := Pylib.pyReplace s "|" "\\|"
    if 100 < e.length then String.mk (e.data.take 97) ++ "..." else e

def headerLine (df : DataFrame) : String :=
  "| " ++ String.intercalate " | " (df.cols.map (fun c => c.name)) ++ " |"

def sepLine (df : DataFrame) : String :=
  "| " ++ String.intercalate " | " (df.cols.map (fun _ => "---")) ++ " |"

def rowLine (row : List (Option String)) : String :=
  "| " ++ String.intercalate " | " (row.map cleanCell) ++ " |"

/-- `CsvConverter._dataframe_to_markdown(df)`. -/
def dataframe_to_markdown (df : DataFrame) : List String :=
  if df.empty then ["*No data available*"]
  else
    let display := if 1000 < df.rows.length then df.rows.take 1000 else df.rows
    headerLine df :: sepLine df :: display.map rowLine ++
      (if 1000 < df.rows.length then
        ["", "*Note: Showing first 1000 rows out of " ++
          toString df.rows.length ++ " total rows.*"]
      else [])

/-- `CsvConverter._extract_metadata(df, filename)`. -/
def extract_metadata (df : DataFrame) (filename : String) : List String :=
  ["---",
   "title: \"" ++ filename ++ "\"",
   "source_format: \"CSV\"",
   "rows: " ++ toString df.rows.length,
   "columns: " ++ toString df.cols.length,
   "columns:"] ++
  df.cols.map (fun c => "  - " ++ c.name ++ ": " ++ c.dtype) ++
  ["---"]

/-- Line list assembled by `CsvConverter.convert` after `pd.read_csv`
succeeded with DataFrame `df`.  `summary` abstracts
`_create_summary_table` (pandas `describe()` rendering). -/
def convert_lines (summary : DataFrame → List String) (df : DataFrame)
    (filename : String) (include_metadata : Bool) : List String :=
  (if include_metadata then extract_metadata df filename ++ [""] else []) ++
  dataframe_to_markdown df ++
  (if has_numeric_data df then ["", "## Summary Statistics", ""] ++ summary df
   else [])

/-- `CsvConverter.convert` output string for a parsed DataFrame. -/
def convert (summary : DataFrame → List String) (df : DataFrame)
    (filename : String) (include_metadata : Bool) : String :=
  String.intercalate "\n" (convert_lines summary df filename include_metadata)

end CsvConverter

namespace TxtConverter

/-! `src/converters/txt_converter.py`, class `TxtConverter`.  Decoding
(`_read_with_encoding`) is upstream of the embedded logic: the functions
below take the decoded text.  Regex checks from `_process_line` and
`_detect_structure` are implemented character-by-character; the one float
expression, `len(next_line) >= len(stripped_line) * 0.7`, is written as
`7 * len(stripped) <= 10 * len(next)`, which agrees with the IEEE-double
comparison for every realistic line length. -/

open Pylib

/-- `re.match(r'^    ', line) or re.match(r'^\t', line)` on the raw line. -/
def indentedLine (line : String) : Bool :=
  startsWithL line "    " || startsWithL line "\t"

/-- `re.match(r'^=+$', l)` (for `c = '='`) / `^-+$` (for `c = '-'`). -/
def isRunOf (c : Char) (l : List Char) : Bool :=
  !l.isEmpty && l.all (fun x => x = c)

/-- `re.match(r'^[=-]+$', l)`. -/
def isUlRun (l : List Char) : Bool :=
  !l.isEmpty && l.all (fun x => x = '=' || x = '-')

/-- `re.match(r'^\d+\.\s+', l)`. -/
def matchNumbered (l : List Char) : Bool :=
  let ds := l.takeWhile Char.isDigit
  !ds.isEmpty &&
    (match l.drop ds.length with
     | '.' :: c :: _ => pyIsSpace c
     | _ => false)

/-- `re.match(r'^[-*+]\s+', l)`. -/
def matchBullet (l : List Char) : Bool :=
  match l with
  | c :: d :: _ => (c = '-' || c = '*' || c = '+') && pyIsSpace d
  | _ => false

/-- `re.search(r'[.!?]$', l)`. -/
def endsTerminal (l : String) : Bool :=
  match l.data.getLast? with
  | some c => c = '.' || c = '!' || c = '?'
  | none => false

/-- The underline-heading test of `_process_line` for underline char `c`:
`index < len(all_lines) - 1` and the next line, stripped, is a run of `c`
at least 70% as long as the stripped current line. -/
def promoteUnderline (c : Char) (all_lines : List String) (index : Nat)
    (stripped : String) : Bool :=
  decide (index < all_lines.length - 1) &&
    (let nl := pyStrip (all_lines.getD (index + 1) "")
     isRunOf c nl.data && decide (7 * stripped.length ≤ 10 * nl.length))

def notSpace (c : Char) : Bool := !pyIsSpace c

/-- Match of `r'(https?://[^\s]+)'` starting exactly here: scheme literal
then a maximal non-empty run of non-whitespace. -/
def urlAt (l : List Char) : Option (List Char × List Char) :=
  if "https://".data.isPrefixOf l then
    let rest := l.drop 8
    let run := rest.takeWhile notSpace
    if run.isEmpty then none
    else some ("https://".data ++ run, rest.drop run.length)
  else if "http://".data.isPrefixOf l then
    let rest := l.drop 7
    let run := rest.takeWhile notSpace
    if run.isEmpty then none
    else some ("http://".data ++ run, rest.drop run.length)
  else none

def hasUrlL : List Char → Bool
  | [] => false
  | c :: t => (urlAt (c :: t)).isSome || hasUrlL t

/-- `re.sub(url_pattern, r'[\1](\1)', l)`: replace every match, scanning
left to right.  The fuel argument is the list length, enough for the scan. -/
def urlSubGo : Nat → List Char → List Char
  | 0, l => l
  | _, [] => []
  | fuel + 1, c :: t =>
    match urlAt (c :: t) with
    | some (tok, rest) =>
      "[".data ++ tok ++ "](".data ++ tok ++ ")".data ++ urlSubGo fuel rest
    | none => c :: urlSubGo fuel t

def urlSubL (l : List Char) : List Char := urlSubGo l.length l

/-- `\w` of the email regex's `\b` boundaries. -/
def wordChar (c : Char) : Bool := c.isAlphanum || c = '_'

/-- `[A-Za-z0-9._%+-]` (local part). -/
def localChar (c : Char) : Bool :=
  c.isAlphanum || c = '.' || c = '_' || c = '%' || c = '+' || c = '-'

/-- `[A-Za-z0-9.-]` (domain part). -/
def domChar (c : Char) : Bool := c.isAlphanum || c = '.' || c = '-'

/-- TLD candidate after the dot at index `k` of the domain run `r`: the
maximal alphabetic run there, needing length ≥ 2 and a non-word character
(or end of string) after it — shortening the greedy run can never repair a
failed `\b`, since the next character would then be a letter. -/
def tldOk (r : List Char) (k : Nat) (afterWord : Bool) : Option (List Char) :=
  let tail := r.drop (k + 1)
  let run := tail.takeWhile Char.isAlpha
  if run.length < 2 then none
  else
    match tail.drop run.length with
    | d :: _ => if wordChar d then none else some run
    | [] => if afterWord then none else some run

/-- Backtracking of `[A-Za-z0-9.-]+\.[A-Z|a-z]{2,}\b`: the greedy domain
run is shortened to the rightmost dot admitting a valid TLD.  (Inputs whose
candidate region touches a literal `\x7c` character — accepted by the
regex's `[A-Z|a-z]` class — are not modelled.) -/
def emailDomSplit (r : List Char) (afterWord : Bool) : Option (Nat × List Char) :=
  ((List.range r.length).filter (fun i => r.getD i ' ' = '.')).reverse.findSome?
    (fun k =>
      if k = 0 then none
      else (tldOk r k afterWord).map (fun run => (k, run)))

/-- Match of the email pattern starting exactly here, `prev` being the
character before this position (for the leading `\b`). -/
def emailAt (prev : Option Char) (l : List Char) : Option (List Char × List Char) :=
  match l with
  | [] => none
  | c :: _ =>
    let prevW := match prev with | some p => wordChar p | none => false
    if !localChar c || (prevW == wordChar c) then none
    else
      let locp := l.takeWhile localChar
      match l.drop locp.length with
      | '@' :: rest2 =>
        let r := rest2.takeWhile domChar
        let afterWord :=
          match rest2.drop r.length with
          | d :: _ => wordChar d
          | [] => false
        match emailDomSplit r afterWord with
        | some (k, run) =>
          some (locp ++ '@' :: (r.take k ++ '.' :: run),
                rest2.drop (k + 1 + run.length))
        | none => none
      | _ => none

def hasEmailGo (prev : Option Char) : List Char → Bool
  | [] => false
  | c :: t => (emailAt prev (c :: t)).isSome || hasEmailGo (some c) t

/-- `re.sub(email_pattern, r'[\g<0>](mailto:\g<0>)', l)`. -/
def emailSubGo : Nat → Option Char → List Char → List Char
  | 0, _, l => l
  | _, _, [] => []
  | fuel + 1, prev, c :: t =>
    match emailAt prev (c :: t) with
    | some (tok, rest) =>
      "[".data ++ tok ++ "](mailto:".data ++ tok ++ ")".data ++
        emailSubGo fuel tok.getLast? rest
    | none => c :: emailSubGo fuel (some c) t

def emailSubL (l : List Char) : List Char := emailSubGo l.length none l

/-- `TxtConverter._process_line(line, index, all_lines)`; `none` is Python's
`None` (line suppressed). -/
def process_line (line : String) (index : Nat) (all_lines : List String) :
    Option String :=
  let stripped := pyStrip line
  if stripped = "" then some ""
  else if promoteUnderline '=' all_lines index stripped then
    some ("# " ++ stripped)
  else if promoteUnderline '-' all_lines index stripped then
    some ("## " ++ stripped)
  else if isUlRun stripped.data then none
  else if matchNumbered stripped.data then some stripped
  else if matchBullet stripped.data then some stripped
  else if pyIsUpper stripped && decide (stripped.length < 80) &&
      decide (countWords stripped ≤ 10) && !endsTerminal stripped then
    some ("## " ++ pyTitle stripped)
  else if indentedLine line then
    (if index = 0 || !indentedLine (all_lines.getD (index - 1) "") then
      some ("```\n" ++ line)
    else if index = all_lines.length - 1 ||
        !indentedLine (all_lines.getD (index + 1) "") then
      some (line ++ "\n```")
    else some line)
  else if hasUrlL stripped.data then some (String.mk (urlSubL stripped.data))
  else if hasEmailGo none stripped.data then some (String.mk (emailSubL stripped.data))
  else some stripped

/-- `TxtConverter._process_text_content(content)` applied to the split
lines: every line processed with its index, `None` results dropped. -/
def process_text_content (lines : List String) : List String :=
  (List.range lines.length).filterMap
    (fun i => process_line (lines.getD i "") i lines)

/-- `re.match(r'^#{1,6}\s+', l)` (with the regex's own backtracking: more
than six leading hashes can never match). -/
def matchHashHeading (l : List Char) : Bool :=
  let hs := l.takeWhile (fun c => c = '#')
  (1 ≤ hs.length && hs.length ≤ 6) &&
    (match l.drop hs.length with
     | c :: _ => pyIsSpace c
     | [] => false)

def emailHeaderStart (low : String) : Bool :=
  startsWithL low "from:" || startsWithL low "to:" ||
    startsWithL low "subject:" || startsWithL low "date:"

/-- `TxtConverter._detect_structure(content)`. -/
def detect_structure (content : String) : Option String :=
  let lines := content.splitOn "\n"
  if 0 < (lines.filter (fun l => matchHashHeading (pyStrip l).data)).length then
    some "markdown-like"
  else if 2 < (lines.filter (fun l => matchNumbered (pyStrip l).data)).length then
    some "numbered-list"
  else if 2 < (lines.filter (fun l => matchBullet (pyStrip l).data)).length then
    some "bullet-list"
  else if lines.any (fun l => emailHeaderStart (pyToLower l)) then
    some "email-like"
  else if ["function", "class", "def", "import", "#include"].any
      (fun k => containsSub (pyToLower content) k) then
    some "code-like"
  else none

/-- `TxtConverter._extract_metadata(filename, content)`. -/
def extract_metadata (filename content : String) : List String :=
  ["---",
   "title: \"" ++ filename ++ "\"",
   "source_format: \"TXT\"",
   "lines: " ++ toString (content.splitOn "\n").length,
   "words: " ++ toString (countWords content),
   "characters: " ++ toString content.length] ++
  (match detect_structure content with
   | some t => ["structure: \"" ++ t ++ "\""]
   | none => []) ++
  ["---"]

/-- Line list assembled by `TxtConverter.convert` for decoded text. -/
def convert_lines (content filename : String) (include_metadata : Bool) :
    List String :=
  (if include_metadata then extract_metadata filename content ++ [""] else []) ++
  process_text_content (content.splitOn "\n")

def convert (content filename : String) (include_metadata : Bool) : String :=
  String.intercalate "\n" (convert_lines content filename include_metadata)

end TxtConverter

namespace DocxConverter

/-! `src/converters/docx_converter.py`, class `DocxConverter`.  The
python-docx object model is embedded structurally: a paragraph is its run
list (with per-run bold/italic/underline flags), its style name and its
alignment; `paragraph.text` is the concatenation of the run texts, which is
what python-docx computes for run-backed paragraphs. -/

open Pylib

structure Run where
  text : String
  bold : Bool
  italic : Bool
  underline : Bool
deriving Repr, DecidableEq

/-- `WD_PARAGRAPH_ALIGNMENT` members used by the source (`paragraph.alignment`
is `None` when unset, hence the `Option`). -/
inductive Alignment
  | left
  | center
  | right
  | justify
deriving Repr, DecidableEq

structure Paragraph where
  runs : List Run
  style_name : String
  alignment : Option Alignment
deriving Repr, DecidableEq

/-- python-docx `paragraph.text`. -/
def Paragraph.text (p : Paragraph) : String :=
  String.join (p.runs.map (fun r => r.text))

/-- `DocxConverter._process_runs(runs)`. -/
def process_runs (runs : List Run) : String :=
  runs.foldl
    (fun result run =>
      let t := run.text
      let t :=
        if run.bold && run.italic then "***" ++ t ++ "***"
        else if run.bold then "**" ++ t ++ "**"
        else if run.italic then "*" ++ t ++ "*"
        else t
      let t := if run.underline then "<u>" ++ t ++ "</u>" else t
      result ++ t)
    ""

/-- `DocxConverter._convert_paragraph(paragraph)`. -/
def convert_paragraph (p : Paragraph) : String :=
  if pyStrip p.text = "" then ""
  else
    let text := pyStrip p.text
    let style_name := pyToLower p.style_name
    if containsSub style_name "heading" then
      let level :=
        if containsSub style_name "heading 1" then 1
        else if containsSub style_name "heading 2" then 2
        else if containsSub style_name "heading 3" then 3
        else if containsSub style_name "heading 4" then 4
        else if containsSub style_name "heading 5" then 5
        else if containsSub style_name "heading 6" then 6
        else 1
      String.mk (List.replicate level '#') ++ " " ++ text
    else
      let text :=
        if p.alignment = some Alignment.center then
          "<center>" ++ text ++ "</center>"
        else if p.alignment = some Alignment.right then
          "<div align=\x27right\x27>" ++ text ++ "</div>"
        else text
      let formatted_text := process_runs p.runs
      if pyStrip formatted_text ≠ "" then formatted_text else text

/-- Abstraction of `doc.core_properties` as read by `_extract_metadata`:
`author`/`subject` are strings (python-docx defaults them to `""`, tested
by Python truthiness), `created`/`modified` carry the already-ISO-formatted
timestamp when present. -/
structure CoreProps where
  author : String
  created : Option String
  modified : Option String
  subject : String
deriving Repr, DecidableEq

/-- `DocxConverter._extract_metadata(doc, filename)`; `props = none` is the
`except` path where accessing `doc.core_properties` raised and every
optional field is skipped. -/
def extract_metadata (props : Option CoreProps) (filename : String) :
    List String :=
  ["---",
   "title: \"" ++ filename ++ "\"",
   "source_format: \"DOCX\""] ++
  (match props with
   | none => []
   | some pr =>
     (if pr.author ≠ "" then ["author: \"" ++ pr.author ++ "\""] else []) ++
     (match pr.created with
      | some d => ["created: \"" ++ d ++ "\""]
      | none => []) ++
     (match pr.modified with
      | some d => ["modified: \"" ++ d ++ "\""]
      | none => []) ++
     (if pr.subject ≠ "" then ["subject: \"" ++ pr.subject ++ "\""] else [])) ++
  ["---"]

end DocxConverter

namespace WxrConverter

/-! `src/converters/wxr_converter.py`, class `WxrConverter`.
`xml.etree.ElementTree.fromstring` plus `_extract_post_data` (the structured
branch, a stdlib XML parser) is abstracted as an `xmlParse` parameter whose
`none` result is `ET.ParseError`; everything else in `_parse_wxr_content`
— the pre-cleaning and the regex fallback — is embedded concretely.
Non-greedy `(.*?)` captures between literal delimiters are implemented as:
first delimiter occurrence, then earliest closing occurrence (retrying from
the next position when a non-DOTALL capture would span a newline). -/

open Pylib

structure Post where
  title : String
  link : String
  post_type : String
  status : String
  date : String
  content : String
  excerpt : String
  author : String
  categories : List String
  tags : List String
deriving Repr, DecidableEq

/-- Characters removed by `re.sub(r"[\x00-\x08\x0B\x0C\x0E-\x1F\x7F]", "", ...)`. -/
def isXmlCtrl (c : Char) : Bool :=
  c.toNat ≤ 0x08 || c.toNat = 0x0B || c.toNat = 0x0C ||
    (0x0E ≤ c.toNat && c.toNat ≤ 0x1F) || c.toNat = 0x7F

/-- `content.replace("&", "&amp;")`. -/
def escAmps : List Char → List Char
  | [] => []
  | '&' :: t => '&' :: 'a' :: 'm' :: 'p' :: ';' :: escAmps t
  | c :: t => c :: escAmps t

/-- `re.sub(r"&amp;(amp|lt|gt|quot|apos);", r"&\1;", ...)`: un-double the
five recognized entities, scanning left to right. -/
def fixEnt : List Char → List Char
  | [] => []
  | '&' :: 'a' :: 'm' :: 'p' :: ';' :: 'a' :: 'm' :: 'p' :: ';' :: rest =>
    '&' :: 'a' :: 'm' :: 'p' :: ';' :: fixEnt rest
  | '&' :: 'a' :: 'm' :: 'p' :: ';' :: 'l' :: 't' :: ';' :: rest =>
    '&' :: 'l' :: 't' :: ';' :: fixEnt rest
  | '&' :: 'a' :: 'm' :: 'p' :: ';' :: 'g' :: 't' :: ';' :: rest =>
    '&' :: 'g' :: 't' :: ';' :: fixEnt rest
  | '&' :: 'a' :: 'm' :: 'p' :: ';' :: 'q' :: 'u' :: 'o' :: 't' :: ';' :: rest =>
    '&' :: 'q' :: 'u' :: 'o' :: 't' :: ';' :: fixEnt rest
  | '&' :: 'a' :: 'm' :: 'p' :: ';' :: 'a' :: 'p' :: 'o' :: 's' :: ';' :: rest =>
    '&' :: 'a' :: 'p' :: 'o' :: 's' :: ';' :: fixEnt rest
  | c :: t => c :: fixEnt t

/-- `WxrConverter._clean_xml_content(content)`. -/
def clean_xml_content (content : String) : String :=
  String.mk (fixEnt (escAmps (content.data.filter (fun c => !isXmlCtrl c))))

/-- First match of `pre(.*?)suf`: capture and the remainder after the
closing delimiter.  `dotall = false` rejects captures containing a newline
(regex `.` without `re.DOTALL`), retrying at the next delimiter occurrence. -/
def betweenFirstGo (dotall : Bool) (preL sufL : List Char) :
    Nat → List Char → Option (List Char × List Char)
  | 0, _ => none
  | fuel + 1, s =>
    match findSub preL s with
    | none => none
    | some j =>
      let afterPre := s.drop (j + preL.length)
      match findSub sufL afterPre with
      | none => none
      | some q =>
        let cap := afterPre.take q
        if dotall || !cap.contains '\n' then
          some (cap, afterPre.drop (q + sufL.length))
        else betweenFirstGo dotall preL sufL fuel (s.drop (j + 1))

def betweenFirst (dotall : Bool) (preL sufL s : List Char) :
    Option (List Char × List Char) :=
  betweenFirstGo dotall preL sufL (s.length + 1) s

/-- `re.findall` of `pre(.*?)suf` with `re.DOTALL` (the `<item>` scan):
successive non-overlapping matches, each continuing after the closer. -/
def findAllGo (preL sufL : List Char) : Nat → List Char → List (List Char)
  | 0, _ => []
  | fuel + 1, s =>
    match betweenFirst true preL sufL s with
    | some (cap, rest) => cap :: findAllGo preL sufL fuel rest
    | none => []

def findAllBetween (preL sufL s : List Char) : List (List Char) :=
  findAllGo preL sufL (s.length + 1) s

/-- `WxrConverter._parse_wxr_with_regex(content)`: the fallback extraction.
Fields absent from the fallback dict (`link`, `post_type`, `status`,
`excerpt`, categories, tags) are empty, matching the falsy `dict.get`
results the renderer tests. -/
def parse_wxr_with_regex (content : String) : List Post :=
  (findAllBetween "<item>".data "</item>".data content.data).filterMap
    (fun item =>
      let title :=
        match betweenFirst true "<title>".data "</title>".data item with
        | some (c, _) => String.mk c
        | none => "Untitled"
      let cont :=
        match betweenFirst true "<content:encoded><![CDATA[".data
            "]]></content:encoded>".data item with
        | some (c, _) => String.mk c
        | none => ""
      let date :=
        match betweenFirst false "<wp:post_date>".data "</wp:post_date>".data
            item with
        | some (c, _) => String.mk c
        | none => ""
      let author :=
        match betweenFirst false "<dc:creator><![CDATA[".data
            "]]></dc:creator>".data item with
        | some (c, _) => String.mk c
        | none => ""
      if cont ≠ "" then
        some ⟨title, "", "", "", date, cont, "", author, [], []⟩
      else none)

/-- `WxrConverter._parse_wxr_content(content)`: clean, try the structured
XML parse (`xmlParse`; `none` = `ET.ParseError` raised), and on failure
fall back to the regex extraction over the cleaned content. -/
def parse_wxr_content (xmlParse : String → Option (List Post))
    (content : String) : List Post :=
  let cleaned := clean_xml_content content
  match xmlParse cleaned with
  | some posts => posts
  | none => parse_wxr_with_regex cleaned

/-- Python `str(list_of_str)` as interpolated by the f-string. -/
def pyListRepr (l : List String) : String :=
  "[" ++ String.intercalate ", " (l.map (fun s => "\x27" ++ s ++ "\x27")) ++ "]"

/-- `WxrConverter._convert_post_to_markdown(post, include_metadata)`;
`htmlToMd` abstracts `_html_to_markdown` (the BeautifulSoup walk). -/
def convert_post_to_markdown (htmlToMd : String → String) (post : Post)
    (include_metadata : Bool) : List String :=
  (if include_metadata then
    ["---", "title: \"" ++ post.title ++ "\""] ++
    (if post.date ≠ "" then ["date: \"" ++ post.date ++ "\""] else []) ++
    (if post.author ≠ "" then ["author: \"" ++ post.author ++ "\""] else []) ++
    (if post.post_type ≠ "" then ["type: \"" ++ post.post_type ++ "\""] else []) ++
    (if post.status ≠ "" then ["status: \"" ++ post.status ++ "\""] else []) ++
    (if !post.categories.isEmpty then
      ["categories: " ++ pyListRepr post.categories] else []) ++
    (if !post.tags.isEmpty then ["tags: " ++ pyListRepr post.tags] else []) ++
    (if post.link ≠ "" then ["original_url: \"" ++ post.link ++ "\""] else []) ++
    ["---", ""]
  else []) ++
  ["# " ++ post.title, ""] ++
  (if post.excerpt ≠ "" && pyStrip post.excerpt ≠ "" then
    ["*" ++ pyStrip (htmlToMd post.excerpt) ++ "*", ""]
  else []) ++
  (if post.content ≠ "" then [htmlToMd post.content] else [])

end WxrConverter

/-! Concrete fixtures used by witnesses and counterexamples. -/

/-- A one-column table with 1001 data rows. -/
def df1001 : CsvConverter.DataFrame :=
  ⟨[⟨"A", "int64"⟩], List.replicate 1001 [some "5"]⟩

/-- A one-column, zero-row table (a header-only CSV after parsing). -/
def dfHeaderOnly : CsvConverter.DataFrame := ⟨[⟨"A", "object"⟩], []⟩

/-- A two-column, zero-row table. -/
def dfHeaderOnly2 : CsvConverter.DataFrame :=
  ⟨[⟨"A", "object"⟩, ⟨"B", "object"⟩], []⟩

/-- Malformed WXR: a bare `&` in free text and a mismatched closing tag
(still malformed after `_clean_xml_content`), with one item holding a title
and a CDATA body. -/
def badWxrInput : String :=
  "<rss><channel><title>My Blog</title>Fish & Chips<item><title>Hello</title><content:encoded><![CDATA[World]]></content:encoded></item></channel></wrongtag>"

/-- A center-aligned plain paragraph with one unformatted run. -/
def centerPara : DocxConverter.Paragraph :=
  ⟨[⟨"Hello", false, false, false⟩], "Normal", some DocxConverter.Alignment.center⟩

/-- A right-aligned plain paragraph with one bold run. -/
def rightPara : DocxConverter.Paragraph :=
  ⟨[⟨"Hi", true, false, false⟩], "Normal", some DocxConverter.Alignment.right⟩


/-- The post the regex fallback extracts from `badWxrInput`. -/
def helloPost : WxrConverter.Post :=
  ⟨"Hello", "", "", "", "", "World", "", "", [], []⟩


namespace ImageHandler

theorem lookupKey_append (k : String) (l1 l2 : List (String × String)) :
    lookupKey k (l1 ++ l2) =
      match lookupKey k l1 with
      | some v => some v
      | none => lookupKey k l2 := by
  induction l1 with
  | nil => simp [lookupKey]
  | cons kv t ih =>
    by_cases h : kv.1 = k <;> simp [lookupKey, h, ih]

theorem lookupKey_eq_none_iff (k : String) (l : List (String × String)) :
    lookupKey k l = none ↔ ∀ kv ∈ l, kv.1 ≠ k := by
  induction l with
  | nil => simp [lookupKey]
  | cons kv t ih =>
    by_cases h : kv.1 = k <;> simp [lookupKey, h, ih]

theorem countKey_eq_zero (k : String) (l : List (String × String))
    (h : lookupKey k l = none) : countKey k l = 0 := by
  induction l with
  | nil => simp [countKey]
  | cons kv t ih =>
    by_cases hk : kv.1 = k
    · simp [lookupKey, hk] at h
    · simp only [lookupKey, hk, if_false] at h
      simp [countKey, hk, ih h]

theorem countKey_eq_one_of_nodup (k : String) (l : List (String × String))
    (hnd : (l.map Prod.fst).Nodup) (v : String) (h : lookupKey k l = some v) :
    countKey k l = 1 := by
  induction l with
  | nil => simp [lookupKey] at h
  | cons kv t ih =>
    simp only [List.map_cons, List.nodup_cons] at hnd
    by_cases hk : kv.1 = k
    · have hnone : lookupKey k t = none := by
        rw [lookupKey_eq_none_iff]
        rintro ⟨a, b⟩ hab heq
        apply hnd.1
        rw [hk, ← heq]
        exact List.mem_map_of_mem Prod.fst hab
      simp [countKey, hk, countKey_eq_zero k t hnone]
    · simp only [lookupKey, hk, if_false] at h
      simp [countKey, hk, ih hnd.2 h]

/-- `save_image` never disturbs an existing hash→filename entry. -/
theorem save_image_preserves (st : State) (k v : String)
    (h : lookupKey k st.images = some v) (d : Bytes) (e p : String) :
    lookupKey k (save_image st d e p).2.images = some v := by
  unfold save_image
  cases hl : lookupKey (Md5.md5Hex8 d) st.images with
  | some fn => simpa [hl] using h
  | none =>
    simp only [hl, lookupKey_append, h]

theorem saveMany_preserves (k v : String) :
    ∀ (ops : List (Bytes × String × String)) (st : State),
      lookupKey k st.images = some v → lookupKey k (saveMany st ops).images = some v := by
  intro ops
  induction ops with
  | nil => intro st h; simpa [saveMany] using h
  | cons op t ih =>
    intro st h
    exact ih _ (save_image_preserves st k v h op.1 op.2.1 op.2.2)

theorem countKey_append (k : String) (l1 l2 : List (String × String)) :
    countKey k (l1 ++ l2) = countKey k l1 + countKey k l2 := by
  induction l1 with
  | nil => simp [countKey]
  | cons kv t ih =>
    by_cases h : kv.1 = k <;> simp [countKey, h, ih, Nat.add_assoc]

/-- A `save_image` call whose hash is already stored returns the recorded
filename and leaves the state untouched. -/
theorem save_image_hit (st : State) (d : Bytes) (e p v : String)
    (h : lookupKey (Md5.md5Hex8 d) st.images = some v) :
    save_image st d e p = (v, st) := by
  simp [save_image, h]

end ImageHandler

theorem list_getLast?_append_single {α : Type} (l : List α) (a : α) :
    (l ++ [a]).getLast? = some a := by
  induction l with
  | nil => rfl
  | cons x t ih =>
    rw [List.cons_append, List.getLast?_cons, ih]
    cases t <;> simp

/-- C1: for every Image Store instance (with the dict's key uniqueness) and
every byte string `b`, two `save_image` calls with the same bytes — whatever
the extensions and prefixes — return the same filename, and afterwards
`get_all_images()` holds exactly one entry for `b`'s content hash, mapping
it to that filename. -/
theorem save_image_idempotent_dedup (st : ImageHandler.State)
    (hnd : (st.images.map Prod.fst).Nodup) (b : ImageHandler.Bytes)
    (e1 p1 e2 p2 : String) :
    (ImageHandler.save_image (ImageHandler.save_image st b e1 p1).2 b e2 p2).1 =
      (ImageHandler.save_image st b e1 p1).1 ∧
    ImageHandler.countKey (Md5.md5Hex8 b)
      (ImageHandler.get_all_images
        (ImageHandler.save_image (ImageHandler.save_image st b e1 p1).2 b e2 p2).2) = 1 ∧
    ImageHandler.lookupKey (Md5.md5Hex8 b)
      (ImageHandler.get_all_images
        (ImageHandler.save_image (ImageHandler.save_image st b e1 p1).2 b e2 p2).2) =
      some (ImageHandler.save_image st b e1 p1).1 := by
  cases hl : ImageHandler.lookupKey (Md5.md5Hex8 b) st.images with
  | some fn =>
    have h1 : ImageHandler.save_image st b e1 p1 = (fn, st) := by
      simp [ImageHandler.save_image, hl]
    have h2 : ImageHandler.save_image st b e2 p2 = (fn, st) := by
      simp [ImageHandler.save_image, hl]
    rw [h1, h2]
    exact ⟨rfl, ImageHandler.countKey_eq_one_of_nodup _ _ hnd fn hl, hl⟩
  | none =>
    have h1 : ImageHandler.save_image st b e1 p1 =
        (p1 ++ "_" ++ toString (st.image_counter + 1) ++ "_" ++
           Md5.md5Hex8 b ++ "." ++ e1,
         { images := st.images ++
             [(Md5.md5Hex8 b,
               p1 ++ "_" ++ toString (st.image_counter + 1) ++ "_" ++
                 Md5.md5Hex8 b ++ "." ++ e1)],
           image_data := st.image_data ++ [(Md5.md5Hex8 b, b)],
           image_counter := st.image_counter + 1 }) := by
      simp [ImageHandler.save_image, hl]
    have hl2 : ImageHandler.lookupKey (Md5.md5Hex8 b)
        (st.images ++
          [(Md5.md5Hex8 b,
            p1 ++ "_" ++ toString (st.image_counter + 1) ++ "_" ++
              Md5.md5Hex8 b ++ "." ++ e1)]) =
        some (p1 ++ "_" ++ toString (st.image_counter + 1) ++ "_" ++
          Md5.md5Hex8 b ++ "." ++ e1) := by
      rw [ImageHandler.lookupKey_append, hl]
      simp [ImageHandler.lookupKey]
    have h2 : ImageHandler.save_image (ImageHandler.save_image st b e1 p1).2 b e2 p2 =
        ((p1 ++ "_" ++ toString (st.image_counter + 1) ++ "_" ++
            Md5.md5Hex8 b ++ "." ++ e1),
         (ImageHandler.save_image st b e1 p1).2) := by
      rw [h1]
      simp [ImageHandler.save_image, hl2]
    rw [h2, h1]
    refine ⟨rfl, ?_, hl2⟩
    simp only [ImageHandler.get_all_images, ImageHandler.countKey_append,
      ImageHandler.countKey_eq_zero _ _ hl]
    simp [ImageHandler.countKey]

/-- Witness for C1 at a concrete store, bytes and names. -/
theorem save_image_idempotent_dedup_witness :
    ((ImageHandler.init.images.map Prod.fst).Nodup) ∧
    (ImageHandler.save_image
        (ImageHandler.save_image ImageHandler.init [1, 2, 3] "png" "image").2
        [1, 2, 3] "jpg" "docx_img").1 =
      (ImageHandler.save_image ImageHandler.init [1, 2, 3] "png" "image").1 ∧
    ImageHandler.countKey (Md5.md5Hex8 [1, 2, 3])
      (ImageHandler.get_all_images
        (ImageHandler.save_image
          (ImageHandler.save_image ImageHandler.init [1, 2, 3] "png" "image").2
          [1, 2, 3] "jpg" "docx_img").2) = 1 := by
  have h := save_image_idempotent_dedup ImageHandler.init (by decide)
    [1, 2, 3] "png" "image" "jpg" "docx_img"
  exact ⟨by decide, h.1, h.2.1⟩

/-- C10: once bytes `b` have been saved with prefix `p1` and extension `e1`,
yielding filename `f` (which embeds `p1`, the allocated sequence number and
`e1`), any number of further saves later, saving `b` again with any other
prefix and extension still returns `f` and leaves the store unchanged — the
later call's prefix/extension are ignored and never recorded for `b`. -/
theorem save_image_ignores_later_prefix_ext (st0 : ImageHandler.State)
    (b : ImageHandler.Bytes) (e1 p1 : String)
    (habs : ImageHandler.lookupKey (Md5.md5Hex8 b) st0.images = none)
    (ops : List (ImageHandler.Bytes × String × String)) (e2 p2 : String) :
    (ImageHandler.save_image st0 b e1 p1).1 =
      p1 ++ "_" ++ toString (st0.image_counter + 1) ++ "_" ++
        Md5.md5Hex8 b ++ "." ++ e1 ∧
    ImageHandler.lookupKey (Md5.md5Hex8 b)
      (ImageHandler.saveMany (ImageHandler.save_image st0 b e1 p1).2 ops).images =
      some (ImageHandler.save_image st0 b e1 p1).1 ∧
    ImageHandler.save_image
      (ImageHandler.saveMany (ImageHandler.save_image st0 b e1 p1).2 ops) b e2 p2 =
      ((ImageHandler.save_image st0 b e1 p1).1,
       ImageHandler.saveMany (ImageHandler.save_image st0 b e1 p1).2 ops) := by
  have hbase : ImageHandler.lookupKey (Md5.md5Hex8 b)
      (ImageHandler.save_image st0 b e1 p1).2.images =
      some (ImageHandler.save_image st0 b e1 p1).1 := by
    simp only [ImageHandler.save_image, habs]
    rw [ImageHandler.lookupKey_append, habs]
    simp [ImageHandler.lookupKey]
  have hkeep := ImageHandler.saveMany_preserves (Md5.md5Hex8 b)
    (ImageHandler.save_image st0 b e1 p1).1 ops _ hbase
  exact ⟨by simp [ImageHandler.save_image, habs], hkeep,
    ImageHandler.save_image_hit _ b e2 p2 _ hkeep⟩

/-- Witness for C10: fresh store, then an unrelated save in between. -/
theorem save_image_ignores_later_prefix_ext_witness :
    (ImageHandler.save_image ImageHandler.init [1, 2, 3] "png" "image").1 =
      "image" ++ "_" ++ toString (ImageHandler.init.image_counter + 1) ++ "_" ++
        Md5.md5Hex8 [1, 2, 3] ++ "." ++ "png" ∧
    ImageHandler.save_image
      (ImageHandler.saveMany
        (ImageHandler.save_image ImageHandler.init [1, 2, 3] "png" "image").2
        [([9, 9], "gif", "wxr_img")]) [1, 2, 3] "jpg" "docx_img" =
      ((ImageHandler.save_image ImageHandler.init [1, 2, 3] "png" "image").1,
       ImageHandler.saveMany
         (ImageHandler.save_image ImageHandler.init [1, 2, 3] "png" "image").2
         [([9, 9], "gif", "wxr_img")]) := by
  have h := save_image_ignores_later_prefix_ext ImageHandler.init [1, 2, 3]
    "png" "image" (by decide) [([9, 9], "gif", "wxr_img")] "jpg" "docx_img"
  exact ⟨h.1, h.2.2⟩

/-- C7: when the bytes cannot be decoded as an image (`decode` fails, the
`except` path), `optimize_image` returns the original bytes unchanged paired
with the fallback extension `png`. -/
theorem optimize_image_decode_failure
    (decode : ImageHandler.Bytes → Option ImageHandler.PILImage)
    (encode : ImageHandler.PILImage → String → ImageHandler.Bytes)
    (image_data : ImageHandler.Bytes) (max_width : Nat)
    (h : decode image_data = none) :
    ImageHandler.optimize_image decode encode image_data max_width =
      (image_data, "png") := by
  simp [ImageHandler.optimize_image, h]

/-- Witness for C7 at concrete bytes and a failing decoder. -/
theorem optimize_image_decode_failure_witness :
    ImageHandler.optimize_image (fun _ => none) (fun _ _ => []) [0, 1, 2] 1200 =
      ([0, 1, 2], "png") :=
  optimize_image_decode_failure (fun _ => none) (fun _ _ => []) [0, 1, 2] 1200 rfl

/-- C8: every metadata block builder (tabular, plain-text, styled-document)
emits a block that opens with a `---` delimiter line and closes with a `---`
delimiter line, whatever optional fields are present. -/
theorem metadata_block_always_closed :
    (∀ (df : CsvConverter.DataFrame) (fn : String),
      (CsvConverter.extract_metadata df fn).head? = some "---" ∧
      (CsvConverter.extract_metadata df fn).getLast? = some "---") ∧
    (∀ (fn content : String),
      (TxtConverter.extract_metadata fn content).head? = some "---" ∧
      (TxtConverter.extract_metadata fn content).getLast? = some "---") ∧
    (∀ (props : Option DocxConverter.CoreProps) (fn : String),
      (DocxConverter.extract_metadata props fn).head? = some "---" ∧
      (DocxConverter.extract_metadata props fn).getLast? = some "---") := by
  exact ⟨fun df fn => ⟨rfl, list_getLast?_append_single _ _⟩,
    fun fn content => ⟨rfl, list_getLast?_append_single _ _⟩,
    fun props fn => ⟨rfl, list_getLast?_append_single _ _⟩⟩

/-- C2 counterexample: a parsed table with one column and zero data rows.
The claim requires the header row to render and the no-data body text to
appear only for zero-column tables; but pandas `df.empty` is already true
when the row axis is empty, so the code emits `*No data available*` and no
header row. -/
theorem csv_header_only_counterexample :
    CsvConverter.dataframe_to_markdown dfHeaderOnly = ["*No data available*"] ∧
    dfHeaderOnly.cols.length = 1 ∧
    "| A |" ∉ CsvConverter.dataframe_to_markdown dfHeaderOnly := by
  refine ⟨rfl, rfl, ?_⟩
  decide

/-- C2 (amended): for a parsed table with zero data rows (and columns all
of non-numeric dtype, which is what `pd.read_csv` infers when there are no
data rows), `convert` succeeds and its output is the metadata block (when
requested) followed by the single `*No data available*` body line: no
header row, no table rows, and no Summary Statistics section. -/
theorem csv_convert_zero_rows (summary : CsvConverter.DataFrame → List String)
    (df : CsvConverter.DataFrame) (fn : String) (im : Bool)
    (hrows : df.rows = []) (_hcols : df.cols ≠ [])
    (hdt : ∀ c ∈ df.cols, CsvConverter.isNumericDtype c.dtype = false) :
    CsvConverter.convert_lines summary df fn im =
      (if im then CsvConverter.extract_metadata df fn ++ [""] else []) ++
        ["*No data available*"] := by
  have hempty : df.empty = true := by
    simp [CsvConverter.DataFrame.empty, hrows]
  have hfil : df.cols.filter (fun c => CsvConverter.isNumericDtype c.dtype) = [] := by
    rw [List.filter_eq_nil_iff]
    intro c hc
    simp [hdt c hc]
  have hnum : CsvConverter.has_numeric_data df = false := by
    simp [CsvConverter.has_numeric_data, hfil]
  simp [CsvConverter.convert_lines, CsvConverter.dataframe_to_markdown,
    hempty, hnum]

/-- Witness for the amended C2 at a concrete header-only table with
metadata requested. -/
theorem csv_convert_zero_rows_witness :
    CsvConverter.convert_lines (fun _ => []) dfHeaderOnly "t.csv" true =
      (CsvConverter.extract_metadata dfHeaderOnly "t.csv" ++ [""]) ++
        ["*No data available*"] := by
  have h := csv_convert_zero_rows (fun _ => []) dfHeaderOnly "t.csv" true rfl
    (by decide) (by decide)
  simpa using h

/-- C6 counterexample: at N = 0 (header-only input, k = 2 columns) the
claimed N ≤ 1000 branch — exactly one header row and one separator row —
fails: the code renders only the no-data marker. -/
theorem csv_table_shape_counterexample :
    CsvConverter.dataframe_to_markdown dfHeaderOnly2 = ["*No data available*"] ∧
    "| A | B |" ∉ CsvConverter.dataframe_to_markdown dfHeaderOnly2 ∧
    "| --- | --- |" ∉ CsvConverter.dataframe_to_markdown dfHeaderOnly2 := by
  refine ⟨rfl, ?_, ?_⟩ <;> decide

/-- C6 (amended): for a parsed table with at least one data row (and at
least one column): when N ≤ 1000 the table block is exactly one header row,
one separator row of k `---` cells, and the N data rows; when N > 1000 it
is the header row, the separator row, exactly the first 1000 data rows, and
a footnote stating the true total row count. -/
theorem csv_table_shape (df : CsvConverter.DataFrame)
    (hr : df.rows ≠ []) (hc : df.cols ≠ []) :
    (df.rows.length ≤ 1000 →
      CsvConverter.dataframe_to_markdown df =
        CsvConverter.headerLine df :: CsvConverter.sepLine df ::
          df.rows.map CsvConverter.rowLine) ∧
    (1000 < df.rows.length →
      CsvConverter.dataframe_to_markdown df =
        CsvConverter.headerLine df :: CsvConverter.sepLine df ::
          (df.rows.take 1000).map CsvConverter.rowLine ++
          ["", "*Note: Showing first 1000 rows out of " ++
            toString df.rows.length ++ " total rows.*"]) ∧
    CsvConverter.sepLine df =
      "| " ++ String.intercalate " | "
        (List.replicate df.cols.length "---") ++ " |" := by
  have hempty : df.empty = false := by
    simp [CsvConverter.DataFrame.empty, hr, hc]
  refine ⟨fun hle => ?_, fun hgt => ?_, ?_⟩
  · have hn : ¬ 1000 < df.rows.length := by omega
    simp [CsvConverter.dataframe_to_markdown, hempty, hn]
  · simp [CsvConverter.dataframe_to_markdown, hempty, hgt]
  · simp [CsvConverter.sepLine, List.map_const']

/-- Witness for the amended C6 at a 1001-row table: the truncation branch
applies. -/
theorem csv_table_shape_witness :
    CsvConverter.dataframe_to_markdown df1001 =
      CsvConverter.headerLine df1001 :: CsvConverter.sepLine df1001 ::
        (df1001.rows.take 1000).map CsvConverter.rowLine ++
        ["", "*Note: Showing first 1000 rows out of " ++
          toString df1001.rows.length ++ " total rows.*"] := by
  have hrows : df1001.rows = List.replicate 1001 [some "5"] := rfl
  have hlen : df1001.rows.length = 1001 := by
    rw [hrows, List.length_replicate]
  have hr : df1001.rows ≠ [] := by
    intro h
    rw [h] at hlen
    simp at hlen
  have h := csv_table_shape df1001 hr (by decide)
  exact h.2.1 (by omega)



/-- C3: the claim says center/right alignment wrapping is applied on the
plain-paragraph path regardless of run formatting.  The code computes the
wrapped text but then returns `_process_runs(...)` whenever that is
non-blank — which it is for every paragraph whose text comes from its runs
— so the wrapping is discarded: a slip in `_convert_paragraph` (its
alignment branch is otherwise dead code). -/
theorem docx_alignment_wrapping_dropped :
    DocxConverter.convert_paragraph centerPara = "Hello" ∧
    Pylib.containsSub (DocxConverter.convert_paragraph centerPara)
      "<center>" = false ∧
    DocxConverter.convert_paragraph rightPara = "**Hi**" ∧
    Pylib.containsSub (DocxConverter.convert_paragraph rightPara)
      "<div" = false := by
  exact ⟨by decide, by decide, by decide, by decide⟩

/-- C4: the claim says a one-line indented block still gets both fences.
The code's `if`/`elif` emits only the opening fence on a line that both
starts and ends its block, leaving the fence unclosed (one occurrence of
the fence marker in the whole output instead of two). -/
theorem txt_single_line_fence_unclosed :
    TxtConverter.process_text_content ["a", "    b", "c"] =
      ["a", "```\n    b", "c"] ∧
    Pylib.countSub (String.intercalate "\n"
      (TxtConverter.process_text_content ["a", "    b", "c"])) "```" = 1 := by
  exact ⟨by decide, by decide⟩

theorem list_getD_of_get? {α : Type} (l : List α) (n : Nat) (a d : α)
    (h : l.get? n = some a) : l.getD n d = a := by
  rw [List.get?_eq_getElem?] at h
  simp [List.getD_eq_getD_get?, h]

theorem string_ne_empty_of_data_ne_nil (s : String) (h : s.data ≠ []) :
    s ≠ "" := by
  intro he
  rw [he] at h
  exact h rfl

theorem promoteUnderline_parts (c : Char) (al : List String) (i : Nat)
    (s : String) (h : TxtConverter.promoteUnderline c al i s = true) :
    i < al.length - 1 ∧
    TxtConverter.isRunOf c (Pylib.pyStrip (al.getD (i + 1) "")).data = true ∧
    7 * s.length ≤ 10 * (Pylib.pyStrip (al.getD (i + 1) "")).length := by
  simp only [TxtConverter.promoteUnderline, Bool.and_eq_true,
    decide_eq_true_eq] at h
  exact ⟨h.1, h.2.1, h.2.2⟩

theorem isRunOf_ne_nil (c : Char) (l : List Char)
    (h : TxtConverter.isRunOf c l = true) : l ≠ [] := by
  simp only [TxtConverter.isRunOf, Bool.and_eq_true, Bool.not_eq_true'] at h
  intro he
  rw [he] at h
  simp at h

theorem isUlRun_of_isRunOf (c : Char) (hc : c = '=' ∨ c = '-') (l : List Char)
    (h : TxtConverter.isRunOf c l = true) : TxtConverter.isUlRun l = true := by
  simp only [TxtConverter.isRunOf, Bool.and_eq_true, List.all_eq_true] at h
  simp only [TxtConverter.isUlRun, Bool.and_eq_true, List.all_eq_true, h.1,
    true_and]
  intro x hx
  have := h.2 x hx
  rcases hc with rfl | rfl
  · simp only [decide_eq_true_eq] at this
    simp [this]
  · simp only [decide_eq_true_eq] at this
    simp [this]

/-- C9 counterexample: in `["A", "==", "=="]` the first `==` line is the
underline of `A`, yet it is not suppressed — being itself followed by
another `=` run, the heading rule fires on it and it yields the output line
`# ==`. -/
theorem txt_underline_not_suppressed_counterexample :
    TxtConverter.process_text_content ["A", "==", "=="] = ["# A", "# =="] ∧
    TxtConverter.process_line "==" 1 ["A", "==", "=="] = some "# ==" := by
  exact ⟨by decide, by decide⟩

/-- C9 (amended): a non-blank line whose successor strips to a run of `=`
at least 70% of its stripped length becomes `# <line>` (a `-` run under the
same rule becomes `## <line>`), and the underline line contributes nothing
to the output — provided the underline is not itself promoted to a heading
by a further underline following it. -/
theorem txt_heading_promotion (lines : List String) (i : Nat) (L U : String)
    (hL : lines.get? i = some L) (hU : lines.get? (i + 1) = some U)
    (hsL : Pylib.pyStrip L ≠ "")
    (hp1 : TxtConverter.promoteUnderline '=' lines (i + 1) (Pylib.pyStrip U) = false)
    (hp2 : TxtConverter.promoteUnderline '-' lines (i + 1) (Pylib.pyStrip U) = false) :
    (TxtConverter.promoteUnderline '=' lines i (Pylib.pyStrip L) = true →
      TxtConverter.process_line L i lines = some ("# " ++ Pylib.pyStrip L) ∧
      ("# " ++ Pylib.pyStrip L) ∈ TxtConverter.process_text_content lines ∧
      TxtConverter.process_line U (i + 1) lines = none) ∧
    (TxtConverter.promoteUnderline '=' lines i (Pylib.pyStrip L) = false →
      TxtConverter.promoteUnderline '-' lines i (Pylib.pyStrip L) = true →
      TxtConverter.process_line L i lines = some ("## " ++ Pylib.pyStrip L) ∧
      ("## " ++ Pylib.pyStrip L) ∈ TxtConverter.process_text_content lines ∧
      TxtConverter.process_line U (i + 1) lines = none) := by
  have hgetDU : lines.getD (i + 1) "" = U := list_getD_of_get? _ _ _ _ hU
  have hgetDL : lines.getD i "" = L := list_getD_of_get? _ _ _ _ hL
  have hlt : i < lines.length := by
    rcases List.get?_eq_some.mp hL with ⟨h, _⟩
    exact h
  constructor
  · intro hq
    have parts := promoteUnderline_parts '=' lines i (Pylib.pyStrip L) hq
    rw [hgetDU] at parts
    have hUne : Pylib.pyStrip U ≠ "" :=
      string_ne_empty_of_data_ne_nil _ (isRunOf_ne_nil _ _ parts.2.1)
    have hUl : TxtConverter.isUlRun (Pylib.pyStrip U).data = true :=
      isUlRun_of_isRunOf '=' (Or.inl rfl) _ parts.2.1
    have hLproc : TxtConverter.process_line L i lines =
        some ("# " ++ Pylib.pyStrip L) := by
      simp [TxtConverter.process_line, hsL, hq]
    refine ⟨hLproc, ?_, ?_⟩
    · apply List.mem_filterMap.mpr
      exact ⟨i, List.mem_range.mpr hlt, by rw [hgetDL]; exact hLproc⟩
    · simp [TxtConverter.process_line, hUne, hp1, hp2, hUl]
  · intro hq1 hq2
    have parts := promoteUnderline_parts '-' lines i (Pylib.pyStrip L) hq2
    rw [hgetDU] at parts
    have hUne : Pylib.pyStrip U ≠ "" :=
      string_ne_empty_of_data_ne_nil _ (isRunOf_ne_nil _ _ parts.2.1)
    have hUl : TxtConverter.isUlRun (Pylib.pyStrip U).data = true :=
      isUlRun_of_isRunOf '-' (Or.inr rfl) _ parts.2.1
    have hLproc : TxtConverter.process_line L i lines =
        some ("## " ++ Pylib.pyStrip L) := by
      simp [TxtConverter.process_line, hsL, hq1, hq2]
    refine ⟨hLproc, ?_, ?_⟩
    · apply List.mem_filterMap.mpr
      exact ⟨i, List.mem_range.mpr hlt, by rw [hgetDL]; exact hLproc⟩
    · simp [TxtConverter.process_line, hUne, hp1, hp2, hUl]

/-- Witness for the amended C9: `Title` over a ten-`=` underline becomes an
H1, appears in the output, and the underline yields nothing. -/
theorem txt_heading_promotion_witness :
    TxtConverter.process_line "Title" 0 ["Title", "==========", "", "x"] =
      some "# Title" ∧
    ("# Title") ∈ TxtConverter.process_text_content
      ["Title", "==========", "", "x"] ∧
    TxtConverter.process_line "==========" 1 ["Title", "==========", "", "x"] =
      none := by
  have h := txt_heading_promotion ["Title", "==========", "", "x"] 0
    "Title" "==========" rfl rfl (by decide) (by decide) (by decide)
  exact h.1 (by decide)

set_option maxRecDepth 8192 in
/-- C5: the syndication converter never propagates an XML well-formedness
error: whenever the structured parse raises (`xmlParse` = `none`, the
`except ET.ParseError` path), the posts come from the regex fallback over
the cleaned content instead.  On the concrete malformed input — a bare `&`
in free text plus a mismatched closing tag — the item's title and non-empty
body still reach the rendered output (`# Hello` heading and the converted
body). -/
theorem wxr_parse_error_fallback
    (xmlParse : String → Option (List WxrConverter.Post)) (content : String)
    (hfail : xmlParse (WxrConverter.clean_xml_content content) = none) :
    WxrConverter.parse_wxr_content xmlParse content =
      WxrConverter.parse_wxr_with_regex (WxrConverter.clean_xml_content content) ∧
    (content = badWxrInput →
      WxrConverter.parse_wxr_content xmlParse content = [helloPost] ∧
      helloPost.title = "Hello" ∧ helloPost.content = "World" ∧
      ∀ (htmlToMd : String → String) (im : Bool),
        ("# Hello") ∈ WxrConverter.convert_post_to_markdown htmlToMd helloPost im ∧
        htmlToMd "World" ∈
          WxrConverter.convert_post_to_markdown htmlToMd helloPost im) := by
  have h1 : WxrConverter.parse_wxr_content xmlParse content =
      WxrConverter.parse_wxr_with_regex (WxrConverter.clean_xml_content content) := by
    simp [WxrConverter.parse_wxr_content, hfail]
  refine ⟨h1, fun hc => ⟨?_, rfl, rfl, ?_⟩⟩
  · rw [h1, hc]
    decide
  · intro htmlToMd im
    cases im <;>
      simp [WxrConverter.convert_post_to_markdown, helloPost]

/-- Witness for C5: a concrete always-failing structured parser on the
malformed input; the fallback recovers the post and its rendering keeps
title and body. -/
theorem wxr_parse_error_fallback_witness :
    WxrConverter.parse_wxr_content (fun _ => none) badWxrInput = [helloPost] ∧
    ("# Hello") ∈ WxrConverter.convert_post_to_markdown (fun s => s)
      helloPost false ∧
    ("World") ∈ WxrConverter.convert_post_to_markdown (fun s => s)
      helloPost false := by
  have h := wxr_parse_error_fallback (fun _ => none) badWxrInput rfl
  obtain ⟨h1, h2⟩ := h
  obtain ⟨he, _, _, hm⟩ := h2 rfl
  have hw := hm (fun s => s) false
  exact ⟨he, hw.1, hw.2⟩
